import Mathlib

/-!
Formal model of the inrcot feed-to-CoT conversion pipeline.

This file embeds the two source files of the repository,
`inrcot/functions.py` and `inrcot/constants.py`, as executable Lean
definitions and proves properties of them.

Modelling conventions:
- An `xml.etree.ElementTree.Element` is modelled as `Element`: a tag,
  an ordered attribute list (Python dicts preserve insertion order),
  an optional text body, and a list of children.  `Element.find` /
  `Element.findall` search direct children only, as in ElementTree.
  Python's element truthiness (`bool(elem)` is `len(elem) != 0`) is
  modelled by inspecting `children`.
- Fallible Python code is modelled in `Except PyErr`: calling `.find`
  or reading `.text` on `None` raises `AttributeError`; `"," in None`
  and `strptime(None, fmt)` raise `TypeError`; `int()` on a
  non-numeric string, tuple unpacking of the wrong arity, and
  `strptime` on non-matching text raise `ValueError`.
- The pyproj MSL-to-WGS84 datum transform is an external library call
  (out of scope per the project's own documentation); it is passed in
  as an explicit function argument `tr`, so every theorem below holds
  for an arbitrary transform.  The source calls it as
  `transformer.transform(lat, lon, alt)` and stringifies the three
  results; `tr` maps those three argument strings to the three
  stringified results.
- A `configparser` section is modelled as an ordered association list
  of string keys and values; `sget` models `SectionProxy.get`.
- Python `datetime` arithmetic is modelled exactly on the proleptic
  Gregorian calendar via day-number conversions; `strptime` with the
  fixed format `%Y-%m-%dT%H:%M:%SZ` is modelled for the canonical
  zero-padded rendering of that format, and `isoformat(sep='T',
  timespec='auto')` for datetimes with zero microseconds (the only
  ones this format can produce).  CPython bounds datetime years to
  1..9999; the model's integer arithmetic is total, which agrees with
  CPython on every in-range value.
-/

namespace Inrcot

/-- Model of `xml.etree.ElementTree.Element`: tag, ordered attributes,
optional text, children. -/
inductive Element where
  | mk (tag : String) (attrs : List (String × String))
       (text : Option String) (children : List Element)
deriving Repr

/-- Tag of an element. -/
def Element.tag : Element → String
  | .mk t _ _ _ => t

/-- Attribute list of an element (insertion order). -/
def Element.attrs : Element → List (String × String)
  | .mk _ a _ _ => a

/-- Text body of an element (`None` when absent). -/
def Element.text : Element → Option String
  | .mk _ _ t _ => t

/-- Child elements, in document order. -/
def Element.children : Element → List Element
  | .mk _ _ _ c => c

/-- Model of `Element.find(tag)`: first direct child with the given tag. -/
def Element.findTag (e : Element) (t : String) : Option Element :=
  e.children.find? (fun c => c.tag == t)

/-- Model of `Element.findall(tag)`: all direct children with the given
tag, in document order. -/
def Element.findAllTag (e : Element) (t : String) : List Element :=
  e.children.filter (fun c => c.tag == t)

/-- Model of `Element.get(key)`: attribute lookup. -/
def Element.getAttr (e : Element) (k : String) : Option String :=
  (e.attrs.find? (fun p => p.1 == k)).map (fun p => p.2)

/-- Python truthiness of an Element: `len(elem) != 0`. -/
def Element.isTruthy (e : Element) : Bool :=
  !e.children.isEmpty

/-- Namespace-qualified KML tag `Document` used by `split_feed`. -/
def kDocument : String := "\x7bhttp://www.opengis.net/kml/2.2\x7dDocument"

/-- Namespace-qualified KML tag `Folder`. -/
def kFolder : String := "\x7bhttp://www.opengis.net/kml/2.2\x7dFolder"

/-- Namespace-qualified KML tag `Placemark`. -/
def kPlacemark : String := "\x7bhttp://www.opengis.net/kml/2.2\x7dPlacemark"

/-- Namespace-qualified KML tag `Point`. -/
def kPoint : String := "\x7bhttp://www.opengis.net/kml/2.2\x7dPoint"

/-- Namespace-qualified KML tag `coordinates`. -/
def kCoordinates : String := "\x7bhttp://www.opengis.net/kml/2.2\x7dcoordinates"

/-- Namespace-qualified KML tag `name`. -/
def kName : String := "\x7bhttp://www.opengis.net/kml/2.2\x7dname"

/-- Namespace-qualified KML tag `TimeStamp`. -/
def kTimeStamp : String := "\x7bhttp://www.opengis.net/kml/2.2\x7dTimeStamp"

/-- Namespace-qualified KML tag `when`. -/
def kWhen : String := "\x7bhttp://www.opengis.net/kml/2.2\x7dwhen"

/-- Model of `split_feed` from `functions.py`, applied to the parsed
root element of the feed (`ET.parse` itself, i.e. XML lexing of the
byte content, is abstracted away; this function receives the parsed
tree).  `if not document: return None` is Python truthiness: it
returns `None` both when no `Document` child exists and when the
`Document` element has no children. -/
def split_feed (tree : Element) : Option (List Element) :=
  match tree.findTag kDocument with
  | none => none
  | some document =>
    if document.children.isEmpty then none
    else some (document.findAllTag kFolder)

/-! Constants from `constants.py`. -/

/-- `DEFAULT_POLL_INTERVAL: int = 120` from `constants.py`. -/
def DEFAULT_POLL_INTERVAL : Nat := 120

/-- `DEFAULT_COT_STALE: str = "600"` from `constants.py`. -/
def DEFAULT_COT_STALE : String := "600"

/-- `DEFAULT_COT_TYPE: str = "a-f-g-e-s"` from `constants.py`. -/
def DEFAULT_COT_TYPE : String := "a-f-g-e-s"

/-- `DEFAULT_FEED_USERNAME: str = "InReach2TAK"` from `constants.py`. -/
def DEFAULT_FEED_USERNAME : String := "InReach2TAK"

/-! Configuration model. -/

/-- Model of `aiohttp.BasicAuth(login, password)` (the encoding field,
which the source never sets, is omitted). -/
structure BasicAuth where
  login : String
  password : String
deriving Repr, DecidableEq

/-- Model of `SectionProxy.get(key)`: first value stored under the key,
`None` when the key is absent. -/
def sget (sect : List (String × String)) (k : String) : Option String :=
  (sect.find? (fun p => p.1 == k)).map (fun p => p.2)

/-- Model of `SectionProxy.get(key, fallback)`. -/
def sgetD (sect : List (String × String)) (k d : String) : String :=
  (sget sect k).getD d

/-- Python truthiness of an optional string: `None` and `""` are falsy. -/
def truthyStr : Option String → Bool
  | none => false
  | some s => s != ""

/-- Model of the dictionary built by `make_feed_conf` (plus the
`feed_name` key that `create_feeds` adds afterwards).  Keys that
`make_feed_conf` always sets, possibly to `None`, are `Option` fields;
`cot_stale` and `cot_type` are always set to a string because the
source supplies defaults. -/
structure FeedConf where
  feed_url : Option String := none
  cot_stale : String := DEFAULT_COT_STALE
  cot_type : String := DEFAULT_COT_TYPE
  cot_icon : Option String := none
  cot_name : Option String := none
  feed_auth : Option BasicAuth := none
  feed_name : Option String := none
deriving Repr, DecidableEq

/-- The empty feed-conf dictionary `{}` substituted by
`feed_conf = feed_conf or {}`: every `feed_conf.get(key, default)`
in `inreach_to_cot_xml` then yields the default. -/
def emptyFeedConf : FeedConf := {}

/-- Model of `make_feed_conf` from `functions.py`.  The auth branch
mirrors `if feed_pass and feed_user:` with Python truthiness (absent
or empty password, or an explicitly empty username, attaches no auth;
an absent username falls back to `DEFAULT_FEED_USERNAME`). -/
def make_feed_conf (sect : List (String × String)) : FeedConf :=
  let feed_pass := sget sect "FEED_PASSWORD"
  let feed_user := sgetD sect "FEED_USERNAME" DEFAULT_FEED_USERNAME
  { feed_url := sget sect "FEED_URL"
    cot_stale := sgetD sect "COT_STALE" DEFAULT_COT_STALE
    cot_type := sgetD sect "COT_TYPE" DEFAULT_COT_TYPE
    cot_icon := sget sect "COT_ICON"
    cot_name := sget sect "COT_NAME"
    feed_auth :=
      match feed_pass with
      | some p => if p ≠ "" ∧ feed_user ≠ "" then some ⟨feed_user, p⟩ else none
      | none => none
    feed_name := none }

/-- Substring test used by `create_feeds`:
`"inrcot_feed_" in feed` on the section name. -/
def hasFeedMarker (s : String) : Bool :=
  (List.range (s.data.length + 1)).any
    (fun i => ("inrcot_feed_".data).isPrefixOf (s.data.drop i))

/-- Model of `create_feeds` from `functions.py`: the loop with
`continue` over `config.sections()` is a `filterMap` in section order;
each kept section's conf additionally records `feed_name`. -/
def create_feeds (config : List (String × List (String × String))) :
    List FeedConf :=
  config.filterMap (fun p =>
    if hasFeedMarker p.1 then
      some { make_feed_conf p.2 with feed_name := some p.1 }
    else none)

/-! Model of the Python `datetime` values and operations the source
uses: `datetime.strptime(time, "%Y-%m-%dT%H:%M:%SZ")`, addition of
`timedelta(seconds=int(cot_stale))`, and
`isoformat(sep='T', timespec='auto')`. -/

/-- A naive `datetime.datetime` with zero microseconds (the format
`%Y-%m-%dT%H:%M:%SZ` carries no sub-second field, and adding a whole
number of seconds preserves zero microseconds). -/
structure DateTime where
  year : Int
  month : Nat
  day : Nat
  hour : Nat
  minute : Nat
  second : Nat
deriving Repr, DecidableEq

/-- Leap year of the proleptic Gregorian calendar, as
`calendar.isleap` / `datetime` use it. -/
def isLeapYear (y : Int) : Bool :=
  y % 4 == 0 && (y % 100 != 0 || y % 400 == 0)

/-- Days in a month of the proleptic Gregorian calendar. -/
def daysInMonth (y : Int) (m : Nat) : Nat :=
  if m = 2 then (if isLeapYear y then 29 else 28)
  else if m = 4 ∨ m = 6 ∨ m = 9 ∨ m = 11 then 30
  else 31

/-- Day number of a civil date, with day 0 = 1970-01-01 (the standard
days-from-civil conversion of the proleptic Gregorian calendar, the
calendar `datetime` arithmetic is defined over). -/
def daysFromCivil (y : Int) (m d : Nat) : Int :=
  let y' : Int := if m ≤ 2 then y - 1 else y
  let era : Int := Int.fdiv y' 400
  let yoe : Nat := (y' - era * 400).toNat
  let mp : Nat := (m + 9) % 12
  let doy : Nat := (153 * mp + 2) / 5 + d - 1
  let doe : Nat := yoe * 365 + yoe / 4 - yoe / 100 + doy
  era * 146097 + (doe : Int) - 719468

/-- Civil date of a day number (inverse of `daysFromCivil`). -/
def civilFromDays (z0 : Int) : Int × Nat × Nat :=
  let z : Int := z0 + 719468
  let era : Int := Int.fdiv z 146097
  let doe : Nat := (z - era * 146097).toNat
  let yoe : Nat := (doe - doe / 1460 + doe / 36524 - doe / 146096) / 365
  let doy : Nat := doe - (365 * yoe + yoe / 4 - yoe / 100)
  let mp : Nat := (5 * doy + 2) / 153
  let d : Nat := doy - (153 * mp + 2) / 5 + 1
  let m : Nat := if mp < 10 then mp + 3 else mp - 9
  ((yoe : Int) + era * 400 + (if m ≤ 2 then 1 else 0), m, d)

/-- Seconds since 1970-01-01T00:00:00 of a `DateTime`. -/
def toTotalSeconds (dt : DateTime) : Int :=
  daysFromCivil dt.year dt.month dt.day * 86400
    + (dt.hour * 3600 + dt.minute * 60 + dt.second : Nat)

/-- `DateTime` of a count of seconds since 1970-01-01T00:00:00. -/
def ofTotalSeconds (t : Int) : DateTime :=
  let days : Int := Int.fdiv t 86400
  let sod : Nat := (t - days * 86400).toNat
  let c := civilFromDays days
  { year := c.1, month := c.2.1, day := c.2.2
    hour := sod / 3600, minute := sod % 3600 / 60, second := sod % 60 }

/-- Model of `datetime + timedelta(seconds=n)`: exact calendar
arithmetic.  (CPython additionally raises `OverflowError` outside
years 1..9999; the model is total and agrees on all in-range values.) -/
def dtAddSeconds (dt : DateTime) (n : Int) : DateTime :=
  ofTotalSeconds (toTotalSeconds dt + n)

/-- Decimal digit value of a character, if it is a digit. -/
def digitVal (c : Char) : Option Nat :=
  if c.isDigit then some (c.toNat - 48) else none

/-- Two-digit decimal field. -/
def digits2 (a b : Char) : Option Nat := do
  let x ← digitVal a
  let y ← digitVal b
  pure (10 * x + y)

/-- Four-digit decimal field. -/
def digits4 (a b c d : Char) : Option Nat := do
  let x ← digits2 a b
  let y ← digits2 c d
  pure (100 * x + y)

/-- Model of `datetime.strptime(s, "%Y-%m-%dT%H:%M:%SZ")` on the
canonical zero-padded rendering of that format: four year digits,
two digits for each other field, the literal separators, and nothing
after the `Z`; the parsed fields must form a valid `datetime`
(year at least `MINYEAR = 1`, valid month/day for the month, hour
below 24, minute and second below 60), else `ValueError`.  (CPython's
`strptime` additionally tolerates non-zero-padded fields; the feed's
documented timestamp format `YYYY-MM-DDTHH:MM:SSZ` is the padded
form modelled here.) -/
def strptime (s : String) : Option DateTime :=
  match s.data with
  | [y1, y2, y3, y4, '-', m1, m2, '-', d1, d2, 'T',
     h1, h2, ':', mi1, mi2, ':', s1, s2, 'Z'] =>
    (do
      let y ← digits4 y1 y2 y3 y4
      let mo ← digits2 m1 m2
      let d ← digits2 d1 d2
      let h ← digits2 h1 h2
      let mi ← digits2 mi1 mi2
      let se ← digits2 s1 s2
      if 1 ≤ y ∧ 1 ≤ mo ∧ mo ≤ 12 ∧ 1 ≤ d ∧ d ≤ daysInMonth y mo
          ∧ h ≤ 23 ∧ mi ≤ 59 ∧ se ≤ 59 then
        pure { year := (y : Int), month := mo, day := d,
               hour := h, minute := mi, second := se }
      else none)
  | _ => none

/-- Zero-padded two-digit decimal rendering (`%02d`). -/
def pad2 (n : Nat) : String :=
  if n < 10 then "0" ++ toString n else toString n

/-- Zero-padded four-digit decimal rendering (`%04d`) of the year.
Python years are always in 1..9999; negative input (unreachable
there) is clamped by `Int.toNat`. -/
def pad4 (y : Int) : String :=
  let n := y.toNat
  if n < 10 then "000" ++ toString n
  else if n < 100 then "00" ++ toString n
  else if n < 1000 then "0" ++ toString n
  else toString n

/-- Model of `datetime.isoformat(sep='T', timespec='auto')` on a naive
datetime with zero microseconds: `YYYY-MM-DDTHH:MM:SS`, no fractional
part (timespec `auto` omits it when microseconds are zero) and no
timezone suffix (the datetime is naive). -/
def isoformat (dt : DateTime) : String :=
  pad4 dt.year ++ "-" ++ pad2 dt.month ++ "-" ++ pad2 dt.day ++ "T"
    ++ pad2 dt.hour ++ ":" ++ pad2 dt.minute ++ ":" ++ pad2 dt.second

/-- Digits of a decimal numeral, most significant first. -/
def digitsToNat (ds : List Char) : Option Nat :=
  match ds with
  | [] => none
  | _ => ds.foldlM (fun acc c => (digitVal c).map (fun v => acc * 10 + v)) 0

/-- Python whitespace characters (the classification behind
`str.isspace` and `str.strip` on ASCII text). -/
def isPyWhitespace (c : Char) : Bool :=
  c = ' ' || c = '\t' || c = '\n' || c = '\x0d' || c = '\x0b' || c = '\x0c'

/-- Whitespace stripping from both ends, as `int()` applies to its
string argument. -/
def stripWs (l : List Char) : List Char :=
  ((l.dropWhile isPyWhitespace).reverse.dropWhile isPyWhitespace).reverse

/-- Model of Python `int(s)` on a string: optional surrounding
whitespace, optional sign, decimal digits; anything else raises
`ValueError`.  (CPython additionally allows digit-group underscores,
which no configuration in scope uses.) -/
def pyInt (s : String) : Option Int :=
  match stripWs s.data with
  | '-' :: ds => (digitsToNat ds).map (fun n => -(n : Int))
  | '+' :: ds => (digitsToNat ds).map (fun n => (n : Int))
  | ds => (digitsToNat ds).map (fun n => (n : Int))

/-! The conversion `inreach_to_cot_xml` and its serialization wrapper. -/

/-- Python exceptions the conversion can raise. -/
inductive PyErr where
  | attributeError
  | typeError
  | valueError
deriving Repr, DecidableEq

/-- Model of Python `str.split(sep)` for a one-character separator,
over the character list of the string. -/
def splitOnChar (c : Char) : List Char → List (List Char)
  | [] => [[]]
  | x :: xs =>
    if x = c then [] :: splitOnChar c xs
    else
      match splitOnChar c xs with
      | [] => [[x]]
      | h :: t => (x :: h) :: t

/-- Model of `s.replace(" ", "")`: for a single-character pattern,
`str.replace` removes exactly the occurrences of that character. -/
def removeSpaces (s : String) : String :=
  ⟨s.data.filter (fun c => c != ' ')⟩

/-- Python `a or b` where `a` is the optional string
`feed_conf.get("cot_name")` and `b` may itself be `None`:
a present non-empty `a` wins, else `b`. -/
def pyOr (a b : Option String) : Option String :=
  match a with
  | some s => if s = "" then b else some s
  | none => b

/-- Python f-string interpolation of a value that is either a string
or `None`: `None` renders as the text `None`. -/
def fstr (v : Option String) : String := v.getD "None"

/-- Resolution of the optional `feed_conf` argument:
`feed_conf = feed_conf or {}`. -/
def fcOf (fc : Option FeedConf) : FeedConf := fc.getD emptyFeedConf

/-- The `point` element built by the conversion: the three stringified
transform outputs and the fixed `ce`/`le` sentinels. -/
def cotPoint (t3 : String × String × String) : Element :=
  .mk "point"
    [("lat", t3.1), ("lon", t3.2.1), ("hae", t3.2.2),
     ("ce", "9999999.0"), ("le", "9999999.0")] none []

/-- The `_remarks` f-string of the conversion. -/
def cotRemarksText (name : Option String) : String :=
  "Garmin inReach User.\r\n Name: " ++ fstr name

/-- The `contact` element built by the conversion. -/
def cotContact (name : Option String) : Element :=
  .mk "contact" [("callsign", fstr name ++ " (inReach)")] none []

/-- The nested `remarks` element built by the conversion: its text
body is the remarks f-string. -/
def cotRemarks (name : Option String) : Element :=
  .mk "remarks" [] (some (cotRemarksText name)) []

/-- The `detail` element built by the conversion: the remarks text is
set as an attribute and carried again by the nested `remarks` child;
a `usericon` child is appended when a (truthy) icon path is
configured. -/
def cotDetail (fc : FeedConf) (name : Option String) : Element :=
  .mk "detail" [("remarks", cotRemarksText name)] none
    ([cotContact name, cotRemarks name] ++
      (match fc.cot_icon with
       | some icon =>
         if icon = "" then []
         else [Element.mk "usericon" [("iconsetpath", icon)] none []]
       | none => []))

/-- The CoT event root element built in the success path of
`inreach_to_cot_xml`, assembled field by field as the source does:
version, type, whitespace-stripped uid, fixed `how`, `time`/`start`
equal to the entry timestamp, the computed stale text, and the `point`
and `detail` children. -/
def cotEvent (fc : FeedConf) (name : Option String) (time : String)
    (cot_stale : String) (t3 : String × String × String) : Element :=
  .mk "event"
    [("version", "2.0"), ("type", fc.cot_type),
     ("uid", removeSpaces ("Garmin-inReach." ++ fstr name)),
     ("how", "m-g"), ("time", time), ("start", time),
     ("stale", cot_stale)]
    none [cotPoint t3, cotDetail fc name]

/-- Model of `inreach_to_cot_xml` from `functions.py`, with the datum
transform passed in as `tr` (see the file header).  The error branches
mirror where CPython would raise: `.find`/`.text` on a `None` element
is `AttributeError`; `"," in None` and `strptime(None, ...)` are
`TypeError`; unpacking a split of the wrong arity (unreachable under
the two-comma guard), a non-matching timestamp, and a non-numeric
`cot_stale` are `ValueError`.  `feed_conf = feed_conf or {}` is
`fcOf`. -/
def inreach_to_cot_xml (tr : String → String → String → String × String × String)
    (feed : Element) (feed_conf : Option FeedConf) :
    Except PyErr (Option Element) :=
  match feed.findTag kPlacemark with
  | none => .error .attributeError
  | some placemarks =>
  match placemarks.findTag kPoint with
  | none => .error .attributeError
  | some _point =>
  match _point.findTag kCoordinates with
  | none => .error .attributeError
  | some coordElem =>
  match placemarks.findTag kName with
  | none => .error .attributeError
  | some nameElem =>
  match placemarks.findTag kTimeStamp with
  | none => .error .attributeError
  | some ts =>
  match ts.findTag kWhen with
  | none => .error .attributeError
  | some whenElem =>
  match coordElem.text with
  | none => .error .typeError
  | some coords =>
  if ¬ (',' ∈ coords.data) ∨ coords.data.count ',' ≠ 2 then .ok none
  else
  match splitOnChar ',' coords.data with
  | [lonL, latL, altL] =>
    if (⟨latL⟩ : String) = "" ∨ (⟨lonL⟩ : String) = "" then .ok none
    else
    match whenElem.text with
    | none => .error .typeError
    | some time =>
    match strptime time with
    | none => .error .valueError
    | some dt =>
    match pyInt (fcOf feed_conf).cot_stale with
    | none => .error .valueError
    | some n =>
      .ok (some (cotEvent (fcOf feed_conf)
        (pyOr (fcOf feed_conf).cot_name nameElem.text) time
        (isoformat (dtAddSeconds dt n)) (tr ⟨latL⟩ ⟨lonL⟩ ⟨altL⟩)))
  | _ => .error .valueError

/-- XML attribute-value escaping of `ElementTree._escape_attrib`. -/
def escAttr (s : String) : String :=
  String.join (s.data.map (fun c =>
    if c = '&' then "&amp;"
    else if c = '<' then "&lt;"
    else if c = '>' then "&gt;"
    else if c = '"' then "&quot;"
    else if c = '\r' then "&#13;"
    else if c = '\n' then "&#10;"
    else if c = '\t' then "&#09;"
    else String.mk [c]))

/-- XML character-data escaping of `ElementTree._escape_cdata`. -/
def escText (s : String) : String :=
  String.join (s.data.map (fun c =>
    if c = '&' then "&amp;"
    else if c = '<' then "&lt;"
    else if c = '>' then "&gt;"
    else String.mk [c]))

/-- Rendering of an attribute list. -/
def attrsToString (attrs : List (String × String)) : String :=
  String.join (attrs.map (fun p => " " ++ p.1 ++ "=\"" ++ escAttr p.2 ++ "\""))

mutual

/-- Model of `ET.tostring` on one element: tag, attributes in
insertion order, short form `<tag />` for an element with no text and
no children, otherwise text followed by serialized children.  (The
bytes-vs-str distinction and the us-ascii character-reference encoding
of non-ASCII text are abstracted to Lean strings.) -/
def tostring (e : Element) : String :=
  match e with
  | .mk tag attrs txt children =>
    "<" ++ tag ++ attrsToString attrs ++
      (if txt.isNone && children.isEmpty then " />"
       else ">" ++ (match txt with | some t => escText t | none => "")
         ++ tostringList children ++ "</" ++ tag ++ ">")

/-- Serialization of a list of children, in order. -/
def tostringList : List Element → String
  | [] => ""
  | c :: cs => tostring c ++ tostringList cs

end

/-- Model of `inreach_to_cot` from `functions.py`:
`ET.tostring(cot) if cot else None`, where `cot` is falsy both when it
is `None` and when it is an element with no children (Python element
truthiness). -/
def inreach_to_cot (tr : String → String → String → String × String × String)
    (content : Element) (feed_conf : Option FeedConf) :
    Except PyErr (Option String) :=
  match inreach_to_cot_xml tr content feed_conf with
  | .error err => .error err
  | .ok cot =>
    .ok (match cot with
         | some e => if e.children.isEmpty then none else some (tostring e)
         | none => none)

/-- Modelled from the spec: the per-entry dispatch step of the polling
loop.  The Worker class that iterates the folders returned by
`split_feed` and enqueues serialized events is not part of the two
source files in scope; per the specification's error-handling design,
a conversion failure on one entry is caught and logged so that "that
single entry is skipped (no event emitted), sibling entries in the
same batch still process normally".  Accordingly each folder is
converted independently and entries that yield no event or raise are
dropped. -/
def processBatch (tr : String → String → String → String × String × String)
    (folders : List Element) (feed_conf : Option FeedConf) : List String :=
  folders.filterMap (fun f =>
    match inreach_to_cot tr f feed_conf with
    | .error _ => none
    | .ok none => none
    | .ok (some b) => some b)

/-! Concrete sample data used by the witness theorems. -/

/-- A placeholder datum transform used on concrete samples: theorems
about the conversion hold for an arbitrary transform, so witnesses may
instantiate it with the identity on the three coordinate strings. -/
def trId : String → String → String → String × String × String :=
  fun la lo al => (la, lo, al)

/-- Sample `coordinates` element. -/
def sCoords : Element := .mk kCoordinates [] (some "-121.5,45.2,1500") []

/-- Sample `Point` element. -/
def sPoint : Element := .mk kPoint [] none [sCoords]

/-- Sample `name` element. -/
def sName : Element := .mk kName [] (some "Tracker1") []

/-- Sample `when` element. -/
def sWhen : Element := .mk kWhen [] (some "2023-06-01T12:00:00Z") []

/-- Sample `TimeStamp` element. -/
def sTimeStamp : Element := .mk kTimeStamp [] none [sWhen]

/-- Sample well-formed `Placemark`. -/
def sPlacemark : Element := .mk kPlacemark [] none [sPoint, sName, sTimeStamp]

/-- Sample well-formed `Folder`. -/
def sFolder : Element := .mk kFolder [] none [sPlacemark]

/-- The event built from `sFolder` with no feed conf. -/
def sEvent : Element :=
  cotEvent emptyFeedConf (some "Tracker1") "2023-06-01T12:00:00Z"
    "2023-06-01T12:10:00" ("45.2", "-121.5", "1500")

/-- A `coordinates` element with only one comma. -/
def sBadCoords : Element := .mk kCoordinates [] (some "-121.5,45.2") []

/-- A `Folder` whose coordinates text has only one comma. -/
def sBadFolder : Element :=
  .mk kFolder [] none
    [.mk kPlacemark [] none [.mk kPoint [] none [sBadCoords], sName, sTimeStamp]]

/-- A `Folder` with no `Placemark` child at all. -/
def sEmptyFolder : Element := .mk kFolder [] none []

/-- A `name` element whose text contains a tab character. -/
def sTabName : Element := .mk kName [] (some "A\tB") []

/-- A `Folder` whose display name contains a tab character. -/
def sTabFolder : Element :=
  .mk kFolder [] none [.mk kPlacemark [] none [sPoint, sTabName, sTimeStamp]]

/-- The event built from `sTabFolder` with no feed conf. -/
def sTabEvent : Element :=
  cotEvent emptyFeedConf (some "A\tB") "2023-06-01T12:00:00Z"
    "2023-06-01T12:10:00" ("45.2", "-121.5", "1500")

/-- A sample `Document` holding two folders. -/
def sDoc : Element := .mk kDocument [] none [sFolder, sBadFolder]

/-- A KML root whose `Document` holds two folders. -/
def sKmlRoot : Element := .mk "kml" [] none [sDoc]

/-- A KML root whose `Document` has no children. -/
def sKmlRootEmptyDoc : Element :=
  .mk "kml" [] none [.mk kDocument [] none []]

/-- A KML root with no `Document` child. -/
def sKmlRootNoDoc : Element := .mk "kml" [] none []

/-- A sample configuration: one marked feed section without a
`FEED_URL`, and one unmarked section. -/
def sConfig : List (String × List (String × String)) :=
  [("inrcot_feed_a", [("COT_NAME", "X")]), ("plain", [("FEED_URL", "u")])]

/-- A folder missing one of the required placemark fields read by
`inreach_to_cot_xml`: the `Placemark` child, its `Point`, the point's
`coordinates`, the placemark's `name` or `TimeStamp`, or the
timestamp's `when`. -/
def missingRequiredField (feed : Element) : Prop :=
  feed.findTag kPlacemark = none ∨
  ∃ pm, feed.findTag kPlacemark = some pm ∧
    (pm.findTag kPoint = none ∨
     (∃ pt, pm.findTag kPoint = some pt ∧ pt.findTag kCoordinates = none) ∨
     pm.findTag kName = none ∨
     pm.findTag kTimeStamp = none ∨
     (∃ ts, pm.findTag kTimeStamp = some ts ∧ ts.findTag kWhen = none))

end Inrcot

namespace Inrcot

/-! Helper lemmas. -/

/-- Splitting on a character yields one more part than the character's
occurrence count. -/
theorem splitOnChar_length (c : Char) (l : List Char) :
    (splitOnChar c l).length = l.count c + 1 := by
  induction l with
  | nil => rfl
  | cons x xs ih =>
    by_cases hx : x = c
    · subst hx
      simp [splitOnChar, List.count_cons, ih]
    · have hne : (splitOnChar c xs) ≠ [] := by
        intro hempty
        have := ih
        rw [hempty] at this
        simp at this
      obtain ⟨h0, t0, ht⟩ := List.exists_cons_of_ne_nil hne
      simp only [splitOnChar, if_neg hx, ht]
      rw [ht] at ih
      simp only [List.length_cons] at ih ⊢
      rw [List.count_cons]
      simp [hx, ih]

/-- Success-shape lemma: whenever `inreach_to_cot_xml` returns an
event, the feed element contains the full placemark field chain, the
coordinates split into three comma-separated fields with non-empty
latitude and longitude, the timestamp parses, the stale offset is
numeric, and the returned element is exactly the built CoT event. -/
theorem xml_ok_some_shape
    (tr : String → String → String → String × String × String)
    (feed : Element) (fc? : Option FeedConf) (e : Element)
    (h : inreach_to_cot_xml tr feed fc? = .ok (some e)) :
    ∃ pm pt cEl nEl ts wEl coords time dt n lonL latL altL,
      feed.findTag kPlacemark = some pm ∧
      pm.findTag kPoint = some pt ∧
      pt.findTag kCoordinates = some cEl ∧
      cEl.text = some coords ∧
      pm.findTag kName = some nEl ∧
      pm.findTag kTimeStamp = some ts ∧
      ts.findTag kWhen = some wEl ∧
      wEl.text = some time ∧
      coords.data.count ',' = 2 ∧
      splitOnChar ',' coords.data = [lonL, latL, altL] ∧
      (⟨latL⟩ : String) ≠ "" ∧ (⟨lonL⟩ : String) ≠ "" ∧
      strptime time = some dt ∧
      pyInt (fcOf fc?).cot_stale = some n ∧
      e = cotEvent (fcOf fc?) (pyOr (fcOf fc?).cot_name nEl.text) time
            (isoformat (dtAddSeconds dt n)) (tr ⟨latL⟩ ⟨lonL⟩ ⟨altL⟩) := by
  unfold inreach_to_cot_xml at h
  split at h
  · simp at h
  rename_i placemarks hpm
  split at h
  · simp at h
  rename_i _point hpt
  split at h
  · simp at h
  rename_i coordElem hc
  split at h
  · simp at h
  rename_i nameElem hn
  split at h
  · simp at h
  rename_i ts0 hts
  split at h
  · simp at h
  rename_i whenElem hw
  split at h
  · simp at h
  rename_i coords hcoords
  split at h
  · simp at h
  rename_i hguard
  rw [not_or] at hguard
  obtain ⟨-, hcount⟩ := hguard
  rw [not_not] at hcount
  split at h
  · rename_i lonL latL altL hsplit
    split at h
    · simp at h
    rename_i hempty
    rw [not_or] at hempty
    obtain ⟨hlat, hlon⟩ := hempty
    split at h
    · simp at h
    rename_i time htime
    split at h
    · simp at h
    rename_i dt hdt
    split at h
    · simp at h
    rename_i n hn'
    simp only [Except.ok.injEq, Option.some.injEq] at h
    exact ⟨placemarks, _point, coordElem, nameElem, ts0, whenElem, coords,
      time, dt, n, lonL, latL, altL, hpm, hpt, hc, hcoords, hn, hts, hw,
      htime, hcount, hsplit, hlat, hlon, hdt, hn', h.symm⟩
  · simp at h

/-- The built event's `stale` attribute is the computed stale text. -/
theorem cotEvent_getAttr_stale (fc : FeedConf) (nm : Option String)
    (time st : String) (t3 : String × String × String) :
    (cotEvent fc nm time st t3).getAttr "stale" = some st := rfl

/-- The built event's `uid` attribute is the vendor prefix, a dot and
the display name, with space characters removed. -/
theorem cotEvent_getAttr_uid (fc : FeedConf) (nm : Option String)
    (time st : String) (t3 : String × String × String) :
    (cotEvent fc nm time st t3).getAttr "uid" =
      some (removeSpaces ("Garmin-inReach." ++ fstr nm)) := rfl

/-- A folder missing a required placemark field makes
`inreach_to_cot_xml` raise `AttributeError` (reading `.find` or
`.text` off the `None` returned by the failed lookup). -/
theorem xml_missing_field_error
    (tr : String → String → String → String × String × String)
    (feed : Element) (fc? : Option FeedConf)
    (h : missingRequiredField feed) :
    inreach_to_cot_xml tr feed fc? = .error .attributeError := by
  unfold inreach_to_cot_xml
  rcases h with h | ⟨pm, hpm, h⟩
  · simp [h]
  rcases h with h | ⟨pt, hpt, h⟩ | h | h | ⟨ts, hts, h⟩
  · simp [hpm, h]
  · simp [hpm, hpt, h]
  · cases hpt : pm.findTag kPoint with
    | none => simp [hpm, hpt]
    | some pt =>
      cases hc : pt.findTag kCoordinates with
      | none => simp [hpm, hpt, hc]
      | some c => simp [hpm, hpt, hc, h]
  · cases hpt : pm.findTag kPoint with
    | none => simp [hpm, hpt]
    | some pt =>
      cases hc : pt.findTag kCoordinates with
      | none => simp [hpm, hpt, hc]
      | some c =>
        cases hn : pm.findTag kName with
        | none => simp [hpm, hpt, hc, hn]
        | some nEl => simp [hpm, hpt, hc, hn, h]
  · cases hpt : pm.findTag kPoint with
    | none => simp [hpm, hpt]
    | some pt =>
      cases hc : pt.findTag kCoordinates with
      | none => simp [hpm, hpt, hc]
      | some c =>
        cases hn : pm.findTag kName with
        | none => simp [hpm, hpt, hc, hn]
        | some nEl => simp [hpm, hpt, hc, hn, hts, h]

/-- C5: a folder missing a required placemark field (Placemark, Point,
coordinates, name, TimeStamp, or when) yields no event: the entry is
skipped by the per-entry dispatch step (which, per the specification's
error-handling design, catches the conversion's `AttributeError`), and
sibling entries in the same batch are processed exactly as they would
be without the failing entry. -/
theorem C5_missing_fields_skip :
    ∀ (tr : String → String → String → String × String × String)
      (fc? : Option FeedConf) (xs : List Element) (bad : Element)
      (ys : List Element), missingRequiredField bad →
      processBatch tr [bad] fc? = [] ∧
      processBatch tr (xs ++ bad :: ys) fc? =
        processBatch tr xs fc? ++ processBatch tr ys fc? := by
  intro tr fc? xs bad ys h
  have hx := xml_missing_field_error tr bad fc? h
  have hcot : inreach_to_cot tr bad fc? = .error .attributeError := by
    unfold inreach_to_cot
    rw [hx]
  constructor
  · simp [processBatch, hcot]
  · simp [processBatch, List.filterMap_append, List.filterMap_cons, hcot]

/-- Witness for C5 at a concrete batch: a folder with no `Placemark`
yields no event, and its well-formed siblings are unaffected. -/
theorem C5_witness :
    processBatch trId [sEmptyFolder] none = [] ∧
    processBatch trId ([sFolder] ++ sEmptyFolder :: [sFolder]) none =
      processBatch trId [sFolder] none ++ processBatch trId [sFolder] none :=
  C5_missing_fields_skip trId none [sFolder] sEmptyFolder [sFolder] (Or.inl rfl)

/-- C2: a folder whose coordinates text does not contain exactly two
commas, or whose comma-split latitude or longitude field is empty,
converts to no event: `inreach_to_cot_xml` and hence `inreach_to_cot`
return `None`; and an entry that converts to no event never prevents
the other entries of its batch from being converted. -/
theorem C2_malformed_coordinates :
    (∀ (tr : String → String → String → String × String × String)
       (feed : Element) (fc? : Option FeedConf) pm pt cEl nEl ts wEl coords,
      feed.findTag kPlacemark = some pm →
      pm.findTag kPoint = some pt →
      pt.findTag kCoordinates = some cEl →
      cEl.text = some coords →
      pm.findTag kName = some nEl →
      pm.findTag kTimeStamp = some ts →
      ts.findTag kWhen = some wEl →
      (coords.data.count ',' ≠ 2 ∨
        ∃ lonL latL altL, splitOnChar ',' coords.data = [lonL, latL, altL] ∧
          (latL = [] ∨ lonL = [])) →
      inreach_to_cot_xml tr feed fc? = .ok none ∧
        inreach_to_cot tr feed fc? = .ok none) ∧
    (∀ (tr : String → String → String → String × String × String)
       (fc? : Option FeedConf) (xs : List Element) (bad : Element)
       (ys : List Element),
      inreach_to_cot tr bad fc? = .ok none →
      processBatch tr (xs ++ bad :: ys) fc? =
        processBatch tr xs fc? ++ processBatch tr ys fc?) := by
  constructor
  · intro tr feed fc? pm pt cEl nEl ts wEl coords hpm hpt hc hct hn hts hw hbad
    have hxml : inreach_to_cot_xml tr feed fc? = .ok none := by
      unfold inreach_to_cot_xml
      simp only [hpm, hpt, hc, hct, hn, hts, hw]
      rcases hbad with hcount | ⟨lonL, latL, altL, hsplit, hempty⟩
      · rw [if_pos (Or.inr hcount)]
      · have hcount2 : coords.data.count ',' = 2 := by
          have hlen := splitOnChar_length ',' coords.data
          rw [hsplit] at hlen
          simp at hlen
          omega
        have hmem : ',' ∈ coords.data := by
          have : 0 < coords.data.count ',' := by omega
          exact List.count_pos_iff.mp this
        rw [if_neg (by push_neg; exact ⟨hmem, hcount2⟩)]
        simp only [hsplit]
        have hstr : (⟨latL⟩ : String) = "" ∨ (⟨lonL⟩ : String) = "" := by
          rcases hempty with hl | hl <;> [left; right] <;>
            simp [hl, String.ext_iff]
        rw [if_pos hstr]
    refine ⟨hxml, ?_⟩
    unfold inreach_to_cot
    rw [hxml]
  · intro tr fc? xs bad ys hbad
    simp [processBatch, List.filterMap_append, List.filterMap_cons, hbad]

/-- Witness for C2 at a concrete folder whose coordinates text
`-121.5,45.2` has a single comma: no event, and a batch around it
behaves as if the entry were absent. -/
theorem C2_witness :
    (inreach_to_cot_xml trId sBadFolder none = .ok none ∧
     inreach_to_cot trId sBadFolder none = .ok none) ∧
    processBatch trId ([sFolder] ++ sBadFolder :: [sFolder]) none =
      processBatch trId [sFolder] none ++ processBatch trId [sFolder] none := by
  have h1 := C2_malformed_coordinates.1 trId sBadFolder none _ _ _ _ _ _ _
    rfl rfl rfl rfl rfl rfl rfl (Or.inl (by decide))
  exact ⟨h1, C2_malformed_coordinates.2 trId none [sFolder] sBadFolder [sFolder] h1.2⟩

/-- C1: for every entry whose `when` text parses under the format
`YYYY-MM-DDTHH:MM:SSZ`, the event's `stale` attribute equals the
parsed report time plus `int(cot_stale)` seconds rendered by
`isoformat(sep='T', timespec='auto')` (ISO-8601 text, `T` separator,
no sub-second part since microseconds are zero, no timezone suffix);
it is a function of the timestamp and `cot_stale` alone (the model has
no wall clock and the conversion reads none).  In particular,
`2023-01-01T00:00:00Z` plus the default `cot_stale` of 600 seconds
renders exactly `2023-01-01T00:10:00`. -/
theorem C1_stale_formula :
    (∀ (tr : String → String → String → String × String × String)
       (feed : Element) (fc? : Option FeedConf) (e pm ts wEl : Element)
       (time : String),
      inreach_to_cot_xml tr feed fc? = .ok (some e) →
      feed.findTag kPlacemark = some pm →
      pm.findTag kTimeStamp = some ts →
      ts.findTag kWhen = some wEl →
      wEl.text = some time →
      ∃ dt n, strptime time = some dt ∧
        pyInt (fcOf fc?).cot_stale = some n ∧
        e.getAttr "stale" = some (isoformat (dtAddSeconds dt n))) ∧
    strptime "2023-01-01T00:00:00Z" = some ⟨2023, 1, 1, 0, 0, 0⟩ ∧
    pyInt DEFAULT_COT_STALE = some 600 ∧
    isoformat (dtAddSeconds ⟨2023, 1, 1, 0, 0, 0⟩ 600) = "2023-01-01T00:10:00" := by
  refine ⟨?_, by decide, by decide, by decide⟩
  intro tr feed fc? e pm ts wEl time h hpm hts hw htime
  obtain ⟨pm0, pt0, cEl0, nEl0, ts0, wEl0, coords0, time0, dt0, n0, lonL, latL,
    altL, hpm0, hpt0, hc0, hct0, hn0, hts0, hw0, hwt0, hcount0, hsplit0, hlat0,
    hlon0, hdt0, hint0, he⟩ := xml_ok_some_shape tr feed fc? e h
  rw [hpm] at hpm0
  injection hpm0 with hpm0
  subst hpm0
  rw [hts] at hts0
  injection hts0 with hts0
  subst hts0
  rw [hw] at hw0
  injection hw0 with hw0
  subst hw0
  rw [htime] at hwt0
  injection hwt0 with hwt0
  subst hwt0
  exact ⟨dt0, n0, hdt0, hint0, by rw [he]; exact cotEvent_getAttr_stale _ _ _ _ _⟩

/-- Witness for C1 at a concrete feed entry (`when` text
`2023-06-01T12:00:00Z`, default conf): the built event's stale
attribute is the parsed report time plus 600 seconds. -/
theorem C1_witness :
    ∃ dt n, strptime "2023-06-01T12:00:00Z" = some dt ∧
      pyInt (fcOf none).cot_stale = some n ∧
      sEvent.getAttr "stale" = some (isoformat (dtAddSeconds dt n)) :=
  C1_stale_formula.1 trId sFolder none sEvent sPlacemark sTimeStamp sWhen
    "2023-06-01T12:00:00Z" rfl rfl rfl rfl rfl

/-- No space character survives `removeSpaces`. -/
theorem removeSpaces_no_space (s : String) : ' ' ∉ (removeSpaces s).data := by
  intro hmem
  have hmem' : ' ' ∈ List.filter (fun c => c != ' ') s.data := hmem
  have h := (List.mem_filter.mp hmem').2
  simp at h

/-- Counterexample to C3 as stated: the uid is built with
`.replace(" ", "")`, which removes only the space character U+0020, so
a display name containing a tab yields a uid that still contains a
whitespace character. -/
theorem C3_counterexample :
    inreach_to_cot_xml trId sTabFolder none = .ok (some sTabEvent) ∧
    sTabEvent.getAttr "uid" = some "Garmin-inReach.A\tB" ∧
    '\t' ∈ ("Garmin-inReach.A\tB").data ∧
    isPyWhitespace '\t' = true :=
  ⟨rfl, rfl, by decide, rfl⟩

/-- C3 as amended: the uid equals the fixed vendor prefix
`Garmin-inReach` + `.` + the display-name (feed `cot_name` override if
set and non-empty, else the entry's parsed name) with all space
characters (U+0020) removed, so the uid never contains a space — but
other whitespace characters in the display name are preserved.  A name
`John Doe` yields a uid ending in `JohnDoe`. -/
theorem C3_uid_amended :
    (∀ (tr : String → String → String → String × String × String)
       (feed : Element) (fc? : Option FeedConf) (e pm nEl : Element),
      inreach_to_cot_xml tr feed fc? = .ok (some e) →
      feed.findTag kPlacemark = some pm →
      pm.findTag kName = some nEl →
      e.getAttr "uid" = some (removeSpaces
        ("Garmin-inReach." ++ fstr (pyOr (fcOf fc?).cot_name nEl.text))) ∧
      ∀ uid, e.getAttr "uid" = some uid → ' ' ∉ uid.data) ∧
    removeSpaces ("Garmin-inReach." ++ "John Doe") = "Garmin-inReach.JohnDoe" := by
  refine ⟨?_, by decide⟩
  intro tr feed fc? e pm nEl h hpm hn
  obtain ⟨pm0, pt0, cEl0, nEl0, ts0, wEl0, coords0, time0, dt0, n0, lonL, latL,
    altL, hpm0, hpt0, hc0, hct0, hn0, hts0, hw0, hwt0, hcount0, hsplit0, hlat0,
    hlon0, hdt0, hint0, he⟩ := xml_ok_some_shape tr feed fc? e h
  rw [hpm] at hpm0
  injection hpm0 with hpm0
  subst hpm0
  rw [hn] at hn0
  injection hn0 with hn0
  subst hn0
  subst he
  refine ⟨cotEvent_getAttr_uid _ _ _ _ _, ?_⟩
  intro uid huid
  rw [cotEvent_getAttr_uid] at huid
  injection huid with huid
  rw [← huid]
  exact removeSpaces_no_space _

/-- Witness for C3's amended statement at a concrete entry whose
parsed name is `Tracker1`. -/
theorem C3_witness :
    sEvent.getAttr "uid" = some (removeSpaces
      ("Garmin-inReach." ++ fstr (pyOr (fcOf none).cot_name sName.text))) ∧
    ∀ uid, sEvent.getAttr "uid" = some uid → ' ' ∉ uid.data :=
  C3_uid_amended.1 trId sFolder none sEvent sPlacemark sName rfl rfl rfl

/-- Counterexample to C4 as stated: a section configuring only a
password (no username) still gets auth attached, because the username
falls back to the default `InReach2TAK`. -/
theorem C4_counterexample :
    sget [("FEED_PASSWORD", "secret123")] "FEED_USERNAME" = none ∧
    (make_feed_conf [("FEED_PASSWORD", "secret123")]).feed_auth =
      some { login := "InReach2TAK", password := "secret123" } :=
  ⟨rfl, rfl⟩

/-- C4 as amended: a built FeedConfig carries an auth pair iff the
configured password is truthy (present and non-empty) and the
effective username — the configured value if present, else the default
`InReach2TAK` — is non-empty; omitting the password yields no auth,
while omitting the username merely falls back to the default.  When
auth is attached it is exactly the (effective username, password)
pair. -/
theorem C4_auth_amended :
    ∀ sect : List (String × String),
      ((make_feed_conf sect).feed_auth ≠ none ↔
        (truthyStr (sget sect "FEED_PASSWORD") = true ∧
         sgetD sect "FEED_USERNAME" DEFAULT_FEED_USERNAME ≠ "")) ∧
      (∀ auth, (make_feed_conf sect).feed_auth = some auth →
        auth = { login := sgetD sect "FEED_USERNAME" DEFAULT_FEED_USERNAME,
                 password := (sget sect "FEED_PASSWORD").getD "" }) := by
  intro sect
  constructor
  · cases h : sget sect "FEED_PASSWORD" with
    | none => simp [make_feed_conf, truthyStr, h]
    | some p =>
      by_cases hp : p = "" <;>
        by_cases hu : sgetD sect "FEED_USERNAME" DEFAULT_FEED_USERNAME = "" <;>
          simp [make_feed_conf, truthyStr, h, hp, hu]
  · intro auth ha
    cases h : sget sect "FEED_PASSWORD" with
    | none => simp [make_feed_conf, h] at ha
    | some p =>
      simp only [make_feed_conf, h] at ha
      split at ha
      · have ha' := Option.some.inj ha
        subst ha'
        rfl
      · exact absurd ha (by simp)

/-- Witness for C4's amended statement: with both a password and an
explicit username configured, auth is attached and equals that pair. -/
theorem C4_witness :
    (make_feed_conf [("FEED_PASSWORD", "pw"), ("FEED_USERNAME", "alice")]).feed_auth ≠ none ∧
    ∀ auth,
      (make_feed_conf [("FEED_PASSWORD", "pw"), ("FEED_USERNAME", "alice")]).feed_auth =
        some auth →
      auth = { login := sgetD [("FEED_PASSWORD", "pw"), ("FEED_USERNAME", "alice")]
                 "FEED_USERNAME" DEFAULT_FEED_USERNAME,
               password := (sget [("FEED_PASSWORD", "pw"), ("FEED_USERNAME", "alice")]
                 "FEED_PASSWORD").getD "" } :=
  ⟨((C4_auth_amended [("FEED_PASSWORD", "pw"), ("FEED_USERNAME", "alice")]).1).mpr
      (by decide),
   (C4_auth_amended [("FEED_PASSWORD", "pw"), ("FEED_USERNAME", "alice")]).2⟩

/-- C6: on a tree whose `Document` container is present and non-empty,
`split_feed` returns exactly the Document's `Folder` children in
document order; on a tree lacking the `Document` container it returns
`None` (and, being a total function, never raises for this
condition). -/
theorem C6_split_feed :
    (∀ tree doc : Element, tree.findTag kDocument = some doc →
      doc.children ≠ [] →
      split_feed tree = some (doc.findAllTag kFolder)) ∧
    (∀ tree : Element, tree.findTag kDocument = none →
      split_feed tree = none) := by
  constructor
  · intro tree doc hdoc hne
    unfold split_feed
    simp only [hdoc]
    cases hch : doc.children with
    | nil => exact absurd hch hne
    | cons a l => simp
  · intro tree h
    unfold split_feed
    simp only [h]

/-- Witness for C6: a `Document` with two folders yields exactly its
folder list; a root with no `Document` yields `None`. -/
theorem C6_witness :
    split_feed sKmlRoot = some (sDoc.findAllTag kFolder) ∧
    split_feed sKmlRootNoDoc = none :=
  ⟨C6_split_feed.1 sKmlRoot sDoc rfl (by simp [sDoc, Element.children]),
   C6_split_feed.2 sKmlRootNoDoc rfl⟩

/-- C7: `create_feeds` keeps exactly the configuration sections whose
name contains the marker substring `inrcot_feed_`, in order; a marked
section lacking `FEED_URL` is still included — with `feed_url = None`
and no validation error (the function is total). -/
theorem C7_feed_sections :
    (∀ config : List (String × List (String × String)),
      (create_feeds config).map (fun fc => fc.feed_name) =
        (config.filter (fun p => hasFeedMarker p.1)).map (fun p => some p.1)) ∧
    (∀ (config : List (String × List (String × String)))
       (n : String) (sect : List (String × String)),
      (n, sect) ∈ config → hasFeedMarker n = true →
      sget sect "FEED_URL" = none →
      { make_feed_conf sect with feed_name := some n } ∈ create_feeds config ∧
      ({ make_feed_conf sect with feed_name := some n } : FeedConf).feed_url =
        none) := by
  constructor
  · intro config
    induction config with
    | nil => rfl
    | cons p ps ih =>
      by_cases hp : hasFeedMarker p.1 <;>
        simp [create_feeds, List.filterMap_cons, List.filter_cons, hp] <;>
        simpa [create_feeds] using ih
  · intro config n sect hmem hmark hurl
    constructor
    · rw [create_feeds, List.mem_filterMap]
      exact ⟨(n, sect), hmem, by simp [hmark]⟩
    · simp [make_feed_conf, hurl]

/-- Witness for C7 at a concrete configuration: the marked url-less
section is kept (with no url), the unmarked one dropped. -/
theorem C7_witness :
    ((create_feeds sConfig).map (fun fc => fc.feed_name) =
      (sConfig.filter (fun p => hasFeedMarker p.1)).map (fun p => some p.1)) ∧
    ({ make_feed_conf [("COT_NAME", "X")] with
        feed_name := some "inrcot_feed_a" } ∈ create_feeds sConfig ∧
      ({ make_feed_conf [("COT_NAME", "X")] with
          feed_name := some "inrcot_feed_a" } : FeedConf).feed_url = none) :=
  ⟨C7_feed_sections.1 sConfig,
   C7_feed_sections.2 sConfig "inrcot_feed_a" [("COT_NAME", "X")]
     (by simp [sConfig]) (by decide) rfl⟩

/-- C8: every built event has `how` equal to the literal `m-g`, and
its `point` child carries `ce` and `le` both equal to the sentinel
`9999999.0`, independent of the input entry, the feed configuration
and the datum transform. -/
theorem C8_fixed_event_attributes :
    ∀ (tr : String → String → String → String × String × String)
      (feed : Element) (fc? : Option FeedConf) (e : Element),
      inreach_to_cot_xml tr feed fc? = .ok (some e) →
      e.getAttr "how" = some "m-g" ∧
      ∃ pt, e.children.head? = some pt ∧ pt.tag = "point" ∧
        pt.getAttr "ce" = some "9999999.0" ∧
        pt.getAttr "le" = some "9999999.0" := by
  intro tr feed fc? e h
  obtain ⟨pm0, pt0, cEl0, nEl0, ts0, wEl0, coords0, time0, dt0, n0, lonL, latL,
    altL, hpm0, hpt0, hc0, hct0, hn0, hts0, hw0, hwt0, hcount0, hsplit0, hlat0,
    hlon0, hdt0, hint0, he⟩ := xml_ok_some_shape tr feed fc? e h
  subst he
  exact ⟨rfl, cotPoint _, rfl, rfl, rfl, rfl⟩

/-- Witness for C8 at a concrete built event. -/
theorem C8_witness :
    sEvent.getAttr "how" = some "m-g" ∧
    ∃ pt, sEvent.children.head? = some pt ∧ pt.tag = "point" ∧
      pt.getAttr "ce" = some "9999999.0" ∧
      pt.getAttr "le" = some "9999999.0" :=
  C8_fixed_event_attributes trId sFolder none sEvent rfl

/-- C9: every built event's `detail` child carries the contact
callsign `<display-name> (inReach)` and the remarks text
`Garmin inReach User.\r\n Name: <display-name>` both as the `remarks`
attribute of the detail node and as the text body of the nested
`remarks` child, where display-name is the feed `cot_name` override if
set (and non-empty), else the entry's parsed name. -/
theorem C9_contact_and_remarks :
    ∀ (tr : String → String → String → String × String × String)
      (feed : Element) (fc? : Option FeedConf) (e pm nEl : Element),
      inreach_to_cot_xml tr feed fc? = .ok (some e) →
      feed.findTag kPlacemark = some pm →
      pm.findTag kName = some nEl →
      ∃ d, e.children.tail.head? = some d ∧ d.tag = "detail" ∧
        (∃ c, d.children.head? = some c ∧ c.tag = "contact" ∧
          c.getAttr "callsign" =
            some (fstr (pyOr (fcOf fc?).cot_name nEl.text) ++ " (inReach)")) ∧
        d.getAttr "remarks" = some ("Garmin inReach User.\r\n Name: " ++
          fstr (pyOr (fcOf fc?).cot_name nEl.text)) ∧
        (∃ r, d.children.tail.head? = some r ∧ r.tag = "remarks" ∧
          r.text = some ("Garmin inReach User.\r\n Name: " ++
            fstr (pyOr (fcOf fc?).cot_name nEl.text))) := by
  intro tr feed fc? e pm nEl h hpm hn
  obtain ⟨pm0, pt0, cEl0, nEl0, ts0, wEl0, coords0, time0, dt0, n0, lonL, latL,
    altL, hpm0, hpt0, hc0, hct0, hn0, hts0, hw0, hwt0, hcount0, hsplit0, hlat0,
    hlon0, hdt0, hint0, he⟩ := xml_ok_some_shape tr feed fc? e h
  rw [hpm] at hpm0
  injection hpm0 with hpm0
  subst hpm0
  rw [hn] at hn0
  injection hn0 with hn0
  subst hn0
  subst he
  exact ⟨cotDetail (fcOf fc?) (pyOr (fcOf fc?).cot_name nEl.text), rfl, rfl,
    ⟨cotContact (pyOr (fcOf fc?).cot_name nEl.text), rfl, rfl, rfl⟩, rfl,
    ⟨cotRemarks (pyOr (fcOf fc?).cot_name nEl.text), rfl, rfl, rfl⟩⟩

/-- Witness for C9 at a concrete built event with parsed name
`Tracker1` and no override. -/
theorem C9_witness :
    ∃ d, sEvent.children.tail.head? = some d ∧ d.tag = "detail" ∧
      (∃ c, d.children.head? = some c ∧ c.tag = "contact" ∧
        c.getAttr "callsign" =
          some (fstr (pyOr (fcOf none).cot_name sName.text) ++ " (inReach)")) ∧
      d.getAttr "remarks" = some ("Garmin inReach User.\r\n Name: " ++
        fstr (pyOr (fcOf none).cot_name sName.text)) ∧
      (∃ r, d.children.tail.head? = some r ∧ r.tag = "remarks" ∧
        r.text = some ("Garmin inReach User.\r\n Name: " ++
          fstr (pyOr (fcOf none).cot_name sName.text))) :=
  C9_contact_and_remarks trId sFolder none sEvent sPlacemark sName rfl rfl rfl

/-- C10: `inreach_to_cot` returns `None` exactly when
`inreach_to_cot_xml` returns no event (built events always have
children, so the `if cot` truthiness test never drops one), otherwise
it returns exactly the serialization of that single event, and it
propagates exactly the conversion's exceptions; and `split_feed`
returns `None` even when the `Document` container is present but has
no child elements, because `if not document` tests element truthiness
(child count), not `None`-ness. -/
theorem C10_serialization_truthiness :
    (∀ (tr : String → String → String → String × String × String)
       (feed : Element) (fc? : Option FeedConf),
      (inreach_to_cot tr feed fc? = .ok none ↔
        inreach_to_cot_xml tr feed fc? = .ok none) ∧
      (∀ e, inreach_to_cot_xml tr feed fc? = .ok (some e) →
        inreach_to_cot tr feed fc? = .ok (some (tostring e))) ∧
      (∀ err, inreach_to_cot tr feed fc? = .error err ↔
        inreach_to_cot_xml tr feed fc? = .error err)) ∧
    (∀ tree doc : Element, tree.findTag kDocument = some doc →
      doc.children = [] → split_feed tree = none) := by
  constructor
  · intro tr feed fc?
    cases hx : inreach_to_cot_xml tr feed fc? with
    | error err0 =>
      have hcot : inreach_to_cot tr feed fc? = .error err0 := by
        unfold inreach_to_cot
        rw [hx]
      refine ⟨?_, ?_, ?_⟩
      · simp [hcot]
      · intro e he
        simp at he
      · intro err
        simp [hcot]
    | ok cot0 =>
      cases cot0 with
      | none =>
        have hcot : inreach_to_cot tr feed fc? = .ok none := by
          unfold inreach_to_cot
          rw [hx]
        refine ⟨?_, ?_, ?_⟩
        · simp [hcot]
        · intro e he
          simp at he
        · intro err
          simp [hcot]
      | some e0 =>
        obtain ⟨pm0, pt0, cEl0, nEl0, ts0, wEl0, coords0, time0, dt0, n0, lonL,
          latL, altL, hpm0, hpt0, hc0, hct0, hn0, hts0, hw0, hwt0, hcount0,
          hsplit0, hlat0, hlon0, hdt0, hint0, he0⟩ :=
          xml_ok_some_shape tr feed fc? e0 hx
        have hne : e0.children.isEmpty = false := by rw [he0]; rfl
        have hcot : inreach_to_cot tr feed fc? = .ok (some (tostring e0)) := by
          unfold inreach_to_cot
          rw [hx]
          simp [hne]
        refine ⟨?_, ?_, ?_⟩
        · simp [hcot]
        · intro e he
          injection he with he'
          injection he' with he''
          rw [← he'']
          exact hcot
        · intro err
          simp [hcot]
  · intro tree doc hdoc hch
    unfold split_feed
    simp only [hdoc]
    simp [hch]

/-- Witness for C10: the sample event is serialized; a present but
empty `Document` yields `None` from `split_feed`. -/
theorem C10_witness :
    inreach_to_cot trId sFolder none = .ok (some (tostring sEvent)) ∧
    split_feed sKmlRootEmptyDoc = none :=
  ⟨(C10_serialization_truthiness.1 trId sFolder none).2.1 sEvent rfl,
   C10_serialization_truthiness.2 sKmlRootEmptyDoc (.mk kDocument [] none [])
     rfl rfl⟩

end Inrcot
